import Mathlib

/-!
Shallow embedding of `atf-c/tc.c` (the ATF test-case lifecycle and
outcome-reporting engine) and proofs about it.

Modelling conventions:
* `atf_dynstr_t` reasons are Lean `String`s; formatted construction
  (`atf_dynstr_init_fmt`, `atf_dynstr_append_ap`) is string concatenation,
  and allocation failures of the string library are not modelled (they are
  escalated to a fatal abort by `check_fatal_error` in the C code, before
  any observable record is produced).
* Process effects are made explicit: a run produces either a process exit
  (with the list of result records written to the result destination), a
  fatal abort, or a normal return of control to the caller together with
  the mutated context and the diagnostic lines printed to the error stream.
* Fallible I/O on the results file (`fopen`, `fprintf`) is modelled by a
  `WriterEnv` oracle saying which opens/writes succeed.
-/

namespace Atf

/-- Where a result record ends up: one of the two special-cased standard
streams, or an ordinary file designated by its path
(`create_resfile`, tc.c:128-133). -/
inductive Dest where
  | stdOut
  | stdErr
  | fsFile (path : String)
deriving DecidableEq, Repr

/-- One record line written to a destination. -/
structure WriteEvent where
  dest : Dest
  line : String
deriving DecidableEq, Repr

/-- Oracle for the fallible I/O performed by `create_resfile`:
whether `fopen(path, "w")` succeeds, and whether an `fprintf` to a given
destination succeeds (returns a positive count). -/
structure WriterEnv where
  fopen_ok : String → Bool
  write_ok : Dest → Bool

/-- The single record line produced by `write_resfile` (tc.c:97-113):
`"<result>\n"` when there is no reason, `"<result>: <reason>\n"` otherwise. -/
def write_resfile_line (result : String) (reason : Option String) : String :=
  match reason with
  | none => result ++ "\n"
  | some r => result ++ ": " ++ r ++ "\n"

/-- The destination chosen by `create_resfile`'s `strcmp` chain
(tc.c:128-133): the two exact path strings `/dev/stdout` and `/dev/stderr`
are special-cased to the process streams, anything else is opened as a file. -/
def resolveDest (resfile : String) : Dest :=
  if resfile = "/dev/stdout" then Dest.stdOut
  else if resfile = "/dev/stderr" then Dest.stdErr
  else Dest.fsFile resfile

/-- Effect of `create_resfile`: either exactly one record line was written
to the resolved destination, or an I/O error occurred and
`check_fatal_error` aborted the process (tc.c:122-147). -/
inductive ResfileEffect where
  | wrote (ev : WriteEvent)
  | ioAborted
deriving DecidableEq, Repr

/-- Function `create_resfile` (tc.c:122-147): dispatch on the two sentinel paths,
otherwise `fopen` the path; write the record with `write_resfile`; any
open or write failure is fatal (`check_fatal_error` aborts).  The reason
is released in all cases (ownership is not tracked in the embedding). -/
def create_resfile (env : WriterEnv) (resfile : String) (result : String)
    (reason : Option String) : ResfileEffect :=
  if resfile = "/dev/stdout" then
    if env.write_ok Dest.stdOut then
      ResfileEffect.wrote ⟨Dest.stdOut, write_resfile_line result reason⟩
    else ResfileEffect.ioAborted
  else if resfile = "/dev/stderr" then
    if env.write_ok Dest.stdErr then
      ResfileEffect.wrote ⟨Dest.stdErr, write_resfile_line result reason⟩
    else ResfileEffect.ioAborted
  else
    if env.fopen_ok resfile then
      if env.write_ok (Dest.fsFile resfile) then
        ResfileEffect.wrote ⟨Dest.fsFile resfile, write_resfile_line result reason⟩
      else ResfileEffect.ioAborted
    else ResfileEffect.ioAborted

/-- Whether all the I/O `create_resfile` needs for a given destination
succeeds under the oracle. -/
def writer_succeeds (env : WriterEnv) (resfile : String) : Bool :=
  if resfile = "/dev/stdout" then env.write_ok Dest.stdOut
  else if resfile = "/dev/stderr" then env.write_ok Dest.stdErr
  else env.fopen_ok resfile && env.write_ok (Dest.fsFile resfile)

/-- The per-run execution context (`struct context`, tc.c:49-53): the
result destination and the count of non-fatal check failures so far.
(The C struct also carries a pointer to the test case being run; no
outcome primitive consults it, so it is not part of the model.) -/
structure Context where
  resfile : String
  fail_count : Nat
deriving DecidableEq, Repr

/-- Function `context_init` (tc.c:55-62). -/
def context_init (resfile : String) : Context :=
  ⟨resfile, 0⟩

/-- The observable outcome of running a piece of the engine:
* `exited success events` — the process terminated via `exit`, after the
  given result records were written (`success` is `EXIT_SUCCESS`);
* `aborted events` — the process terminated via `abort` (fatal framework
  error), after the given result records were written;
* `returned ctx diag` — control returned to the caller with the mutated
  context, having printed the given diagnostic lines to `stderr`. -/
inductive PrimResult where
  | exited (success : Bool) (events : List WriteEvent)
  | aborted (events : List WriteEvent)
  | returned (ctx : Context) (diag : List String)
deriving DecidableEq, Repr

/-- Holds (as `true`) iff the result is a process termination (exit or abort), i.e.
control did not come back to the caller. -/
def terminatesProcess : PrimResult → Bool
  | PrimResult.returned _ _ => false
  | _ => true

/-- Function `pass` (tc.c:165-170): write a `passed` record, `exit(EXIT_SUCCESS)`. -/
def pass (env : WriterEnv) (ctx : Context) : PrimResult :=
  match create_resfile env ctx.resfile "passed" none with
  | ResfileEffect.wrote ev => PrimResult.exited true [ev]
  | ResfileEffect.ioAborted => PrimResult.aborted []

/-- Function `fail_requirement` (tc.c:149-154): write a `failed` record with the
reason, `exit(EXIT_FAILURE)`. -/
def fail_requirement (env : WriterEnv) (ctx : Context) (reason : String) : PrimResult :=
  match create_resfile env ctx.resfile "failed" (some reason) with
  | ResfileEffect.wrote ev => PrimResult.exited false [ev]
  | ResfileEffect.ioAborted => PrimResult.aborted []

/-- Function `skip` (tc.c:172-177): write a `skipped` record with the reason,
`exit(EXIT_SUCCESS)`. -/
def skip (env : WriterEnv) (ctx : Context) (reason : String) : PrimResult :=
  match create_resfile env ctx.resfile "skipped" (some reason) with
  | ResfileEffect.wrote ev => PrimResult.exited true [ev]
  | ResfileEffect.ioAborted => PrimResult.aborted []

/-- Function `fail_check` (tc.c:156-163): print `*** Check failed: <reason>` to
`stderr`, release the reason, increment the deferred-failure counter, and
return to the caller. -/
def fail_check (ctx : Context) (reason : String) : PrimResult :=
  PrimResult.returned { ctx with fail_count := ctx.fail_count + 1 }
    ["*** Check failed: " ++ reason ++ "\n"]

/-- Functions `format_reason_ap` / `format_reason_fmt` (tc.c:191-226): the reason
text, prefixed with `"<file>:<line>: "` when a source file is supplied
(when the file is null the line must be 0, `PRE` at tc.c:202). -/
def format_reason (file : Option String) (line : Nat) (body : String) : String :=
  match file with
  | some f => f ++ ":" ++ toString line ++ ": " ++ body
  | none => body

/-- Function `_atf_tc_fail_nonfatal` (tc.c:548-559): format the reason with no
source location, then `fail_check`. -/
def atf_tc_fail_nonfatal (ctx : Context) (msg : String) : PrimResult :=
  fail_check ctx (format_reason none 0 msg)

/-- A step of a test body, as seen by the Outcome Engine: the body either
invokes one of the primitives exposed to it or runs code with no engine
effect (which the model elides).  The reasons carried are the already
formatted reason strings. -/
inductive BodyAction where
  | act_pass
  | act_fail_requirement (reason : String)
  | act_skip (reason : String)
  | act_fail_check (reason : String)
deriving DecidableEq, Repr

/-- The engine effect of one body action on the current context. -/
def bodyStep (env : WriterEnv) (ctx : Context) : BodyAction → PrimResult
  | BodyAction.act_pass => pass env ctx
  | BodyAction.act_fail_requirement r => fail_requirement env ctx r
  | BodyAction.act_skip r => skip env ctx r
  | BodyAction.act_fail_check r => fail_check ctx r

/-- Running a body, i.e. the trace of primitive invocations the body
callback performs: a process-terminating primitive cuts the run short;
otherwise the run continues with the mutated context, and the body
eventually returns normally to `atf_tc_run`. -/
def runBody (env : WriterEnv) : List BodyAction → Context → PrimResult
  | [], ctx => PrimResult.returned ctx []
  | a :: rest, ctx =>
    match bodyStep env ctx a with
    | PrimResult.exited s evs => PrimResult.exited s evs
    | PrimResult.aborted evs => PrimResult.aborted evs
    | PrimResult.returned ctx1 d =>
      match runBody env rest ctx1 with
      | PrimResult.exited s evs => PrimResult.exited s evs
      | PrimResult.aborted evs => PrimResult.aborted evs
      | PrimResult.returned ctx2 d2 => PrimResult.returned ctx2 (d ++ d2)

/-- The reason `atf_tc_run` formats when the body returned normally with a
nonzero deferred-failure count (tc.c:651-652): the counter printed in
decimal, then `" checks failed; see output for more details"`. -/
def checks_failed_reason (n : Nat) : String :=
  toString n ++ " checks failed; see output for more details"

/-- The reduction step of `atf_tc_run` after the body has returned
normally (tc.c:646-654): `pass` when the deferred-failure counter is zero,
otherwise `fail_requirement` with the counter in the reason.  The final
`PrimResult.returned` branch corresponds to the trailing
`return atf_no_error();` at tc.c:656, reachable only if the chosen
terminal primitive were to return; `d` is the diagnostic output the body
produced before returning. -/
def run_final (env : WriterEnv) (ctx : Context) (d : List String) : PrimResult :=
  match (if ctx.fail_count = 0 then pass env ctx
         else fail_requirement env ctx (checks_failed_reason ctx.fail_count)) with
  | PrimResult.exited s evs => PrimResult.exited s evs
  | PrimResult.aborted evs => PrimResult.aborted evs
  | PrimResult.returned ctx2 d2 => PrimResult.returned ctx2 (d ++ d2)

/-- Function `atf_tc_run` (tc.c:639-657): install a fresh context for the
destination, run the body; if the body returns normally, reduce the
deferred-failure counter to the final outcome via `run_final`. -/
def atf_tc_run (env : WriterEnv) (body : List BodyAction) (resfile : String) : PrimResult :=
  match runBody env body (context_init resfile) with
  | PrimResult.exited s evs => PrimResult.exited s evs
  | PrimResult.aborted evs => PrimResult.aborted evs
  | PrimResult.returned ctx d => run_final env ctx d

/-! ## Program Presence Checker -/

/-- Oracle for the filesystem collaborator `atf_fs_eaccess(p, atf_fs_access_x)`:
whether a path passes the executable-access test.  A probe that errors for
any reason (nonexistent path, unreadable directory, ...) is `false`; the C
code frees the error and treats all probe failures alike (tc.c:276-280). -/
structure FsOracle where
  eaccess_x : String → Bool

/-- Modelled from the spec: the collaborator `atf_fs_path_is_absolute`
(atf-c/fs.c, not under src/) — the absolute-path predicate of §6; a POSIX
path is absolute exactly when it starts with `/`. -/
def atf_fs_path_is_absolute (p : String) : Bool :=
  match p.data with
  | [] => false
  | c :: _ => c == '/'

/-- Modelled from the spec: the collaborator word splitting of
`atf_text_for_each_word` (atf-c/text.c, not under src/) — "splits it on
`:`" producing one token per delimited word, as a structural recursion on
the character list. -/
def split_words (sep : Char) : List Char → List (List Char)
  | [] => [[]]
  | c :: rest =>
    match split_words sep rest with
    | [] => [[]]
    | w :: ws => if c = sep then [] :: w :: ws else (c :: w) :: ws

/-- The search-path value split on the `:` separator, in order. -/
def split_path (path : String) : List String :=
  (split_words ':' path.data).map (fun w => String.mk w)

/-- Modelled from the spec: the collaborator `atf_fs_path_branch_path`
(atf-c/fs.c, not under src/) — "join child-to-parent (branch path)" of §6,
i.e. the directory component of a path: everything before the last `/`,
`"."` when there is no `/`, `"/"` for a child of the root. -/
def branch_path (p : String) : String :=
  match (p.toList.reverse).dropWhile (fun c => c ≠ '/') with
  | [] => "."
  | _ :: rest => if rest = [] then "/" else String.mk rest.reverse

/-- Struct `prog_found_pair` (tc.c:253-256). -/
structure prog_found_pair where
  prog : String
  found : Bool
deriving DecidableEq, Repr

/-- Function `check_prog_in_dir` (tc.c:258-287), the `for_each_word` callback: if a
previous directory already matched, do nothing; otherwise build
`<dir>/<prog>` and probe it for executable access, recording a hit and
silently ignoring a probe failure.  The second component is the list of
candidate paths actually probed by this call (zero or one). -/
def check_prog_in_dir (fs : FsOracle) (dir : String) (pf : prog_found_pair) :
    prog_found_pair × List String :=
  if pf.found then (pf, [])
  else
    let p := dir ++ "/" ++ pf.prog
    if fs.eaccess_x p then ({ pf with found := true }, [p])
    else (pf, [p])

/-- Modelled from the spec for the iteration shape: the collaborator
`atf_text_for_each_word(path, ":", check_prog_in_dir, &pf)` (atf-c/text.c,
not under src/) invokes the callback once per delimited token in order
(§6); the fold below applies `check_prog_in_dir` to each directory of the
already-split search path, accumulating the probed candidate paths.
(`check_prog_in_dir` never returns an error in the model — its only error
source is allocation — so the short-circuit-on-error case does not arise.) -/
def for_each_word_check (fs : FsOracle) :
    List String → prog_found_pair → prog_found_pair × List String
  | [], pf => (pf, [])
  | d :: ds, pf =>
    let r1 := check_prog_in_dir fs d pf
    let r2 := for_each_word_check fs ds r1.1
    (r2.1, r1.2 ++ r2.2)

/-- The whole word iteration of tc.c:328-330: start from
`pf = (prog, not found)` and run `check_prog_in_dir` over the directories
of the search path (the `PATH` value split on `":"`). -/
def check_prog_search (fs : FsOracle) (path prog : String) :
    prog_found_pair × List String :=
  for_each_word_check fs (split_path path) ⟨prog, false⟩

/-- Function `check_prog` (tc.c:289-352) combined with its caller
`_atf_tc_require_prog` (tc.c:597-601, which escalates any returned error to
a fatal abort).  `path` is the value of the `PATH` environment variable
read at tc.c:311, already split on `":"` by the `for_each_word`
collaborator.  The second component is the list of paths probed for
executable access. -/
def check_prog (env : WriterEnv) (fs : FsOracle) (ctx : Context) (path : String)
    (prog : String) : PrimResult × List String :=
  if atf_fs_path_is_absolute prog then
    if fs.eaccess_x prog then (PrimResult.returned ctx [], [prog])
    else
      (skip env ctx ("The required program " ++ prog ++ " could not be found"),
       [prog])
  else
    if branch_path prog = "." then
      if (check_prog_search fs path prog).1.found then
        (PrimResult.returned ctx [], (check_prog_search fs path prog).2)
      else
        (fail_requirement env ctx
          ("The required program " ++ prog ++ " could not be found in the PATH"),
         (check_prog_search fs path prog).2)
    else
      (PrimResult.aborted [], [])

/-! ## The test-case object and `atf_tc_init` -/

/-- The metadata store: the external ordered map collaborator
(`atf_map_t`), as an association list in insertion order. -/
def VarMap := List (String × String)

/-- Collaborator `atf_map_insert` with overwrite: last-write-wins on an existing key,
append otherwise. -/
def atf_map_insert (m : VarMap) (k v : String) : VarMap :=
  match m with
  | [] => [(k, v)]
  | (k1, v1) :: rest =>
    if k1 = k then (k, v) :: rest else (k1, v1) :: atf_map_insert rest k v

/-- Collaborator `atf_map_find` as used by `atf_tc_get_md_var` / `atf_tc_has_md_var`. -/
def atf_map_find (m : VarMap) (k : String) : Option String :=
  match m with
  | [] => none
  | (k1, v1) :: rest => if k1 = k then some v1 else atf_map_find rest k

/-- The test-case object (`atf_tc_t`) as far as the claims consult it: the
immutable identifier field `m_ident`, whether a cleanup callback was
supplied, and the metadata store `m_vars`.  The `m_head`/`m_body`/`m_cleanup`
callback pointers and the borrowed config map are threaded separately where
needed. -/
structure atf_tc where
  m_ident : String
  m_has_cleanup : Bool
  m_vars : VarMap

/-- Function `atf_tc_set_md_var` (tc.c:511-528) restricted to a preformatted value:
insert into the metadata store with overwrite. -/
def atf_tc_set_md_var (tc : atf_tc) (name value : String) : atf_tc :=
  { tc with m_vars := atf_map_insert tc.m_vars name value }

/-- Function `atf_tc_get_md_var` (tc.c:460-472); the C version has
`PRE(atf_tc_has_md_var(tc, name))`, so `none` models a contract violation. -/
def atf_tc_get_md_var (tc : atf_tc) (name : String) : Option String :=
  atf_map_find tc.m_vars name

/-- Function `atf_tc_get_ident` (tc.c:426-430). -/
def atf_tc_get_ident (tc : atf_tc) : String :=
  tc.m_ident

/-- The metadata store as `atf_tc_init` has seeded it just before invoking
the head (setup) callback (tc.c:375-387): `ident`, plus `has.cleanup` when
a cleanup callback is present. -/
def init_vars_pre_head (ident : String) (hasCleanup : Bool) : VarMap :=
  let m := atf_map_insert [] "ident" ident
  if hasCleanup then atf_map_insert m "has.cleanup" "true" else m

/-- Result of `atf_tc_init`: either the initialized object, or the fatal
abort of `report_fatal_error` (tc.c:393-397).  The construction-time error
path (map/format allocation failure) is not modelled: the model's map
operations cannot fail. -/
inductive InitResult where
  | ok (tc : atf_tc)
  | fatal

/-- The metadata store after the head (setup) callback has run
(tc.c:390-391): the head is modelled as an arbitrary transformation of
the metadata store, the only test-case state it can touch through the
`atf_tc_set_md_var` API. -/
def init_vars_post_head (ident : String) (head : Option (VarMap → VarMap))
    (hasCleanup : Bool) : VarMap :=
  match head with
  | none => init_vars_pre_head ident hasCleanup
  | some h => h (init_vars_pre_head ident hasCleanup)

/-- Function `atf_tc_init` (tc.c:362-406): store the identifier and callbacks, seed
the metadata store, run the head callback if present, then verify that
the `ident` metadata entry still equals the constructed identifier
(tc.c:393, via `strcmp` on `atf_tc_get_md_var`) — a mismatch is a fatal
error (`report_fatal_error`, no return). -/
def atf_tc_init (ident : String) (head : Option (VarMap → VarMap))
    (hasCleanup : Bool) : InitResult :=
  if atf_map_find (init_vars_post_head ident head hasCleanup) "ident" = some ident then
    InitResult.ok ⟨ident, hasCleanup, init_vars_post_head ident head hasCleanup⟩
  else InitResult.fatal

/-! ## errno checks -/

/-- Function `errno_test` (tc.c:228-251): given the expected errno, the captured
`errno`, the expression's result and source text, do nothing when the
expression was true and the errno matches; otherwise format the diagnostic
reason and hand it to the supplied fail function. -/
def errno_test (fail_func : Context → String → PrimResult) (ctx : Context)
    (file : Option String) (line : Nat) (exp_errno : Int) (expr_str : String)
    (expr_result : Bool) (actual_errno : Int) : PrimResult :=
  if expr_result then
    if exp_errno ≠ actual_errno then
      fail_func ctx (format_reason file line
        ("Expected errno " ++ toString exp_errno ++ ", got " ++
         toString actual_errno ++ ", in " ++ expr_str))
    else PrimResult.returned ctx []
  else
    fail_func ctx (format_reason file line ("Expected true value in " ++ expr_str))

/-- Function `_atf_tc_check_errno` (tc.c:616-622): `errno_test` dispatching to the
non-fatal `fail_check`. -/
def atf_tc_check_errno (ctx : Context) (file : Option String) (line : Nat)
    (exp_errno : Int) (expr_str : String) (expr_result : Bool)
    (actual_errno : Int) : PrimResult :=
  errno_test fail_check ctx file line exp_errno expr_str expr_result actual_errno

/-- Function `_atf_tc_require_errno` (tc.c:624-631): `errno_test` dispatching to the
terminal `fail_requirement`. -/
def atf_tc_require_errno (env : WriterEnv) (ctx : Context) (file : Option String)
    (line : Nat) (exp_errno : Int) (expr_str : String) (expr_result : Bool)
    (actual_errno : Int) : PrimResult :=
  errno_test (fail_requirement env) ctx file line exp_errno expr_str expr_result
    actual_errno

/-- A writer oracle on which every open and write succeeds (a healthy
result destination), used to instantiate the theorems below. -/
def envAll : WriterEnv :=
  ⟨fun _ => true, fun _ => true⟩

/-- A filesystem oracle on which exactly the path `/d2/tool` passes the
executable-access test, used to instantiate the theorems below. -/
def fsD2 : FsOracle :=
  ⟨fun s => s == "/d2/tool"⟩

/-! ## Helper lemmas -/

theorem create_resfile_of_succeeds (env : WriterEnv) (resfile result : String)
    (reason : Option String) (h : writer_succeeds env resfile = true) :
    create_resfile env resfile result reason =
      ResfileEffect.wrote ⟨resolveDest resfile, write_resfile_line result reason⟩ := by
  unfold writer_succeeds at h
  unfold create_resfile resolveDest
  by_cases h1 : resfile = "/dev/stdout"
  · simp [h1] at h ⊢; exact h
  · by_cases h2 : resfile = "/dev/stderr"
    · simp [h1, h2] at h ⊢; exact h
    · rw [if_neg h1, if_neg h2, Bool.and_eq_true] at h
      simp [h1, h2, h.1, h.2]


theorem pass_of_succeeds (env : WriterEnv) (ctx : Context)
    (h : writer_succeeds env ctx.resfile = true) :
    pass env ctx = PrimResult.exited true
      [⟨resolveDest ctx.resfile, write_resfile_line "passed" none⟩] := by
  unfold pass
  rw [create_resfile_of_succeeds env ctx.resfile "passed" none h]

theorem fail_requirement_of_succeeds (env : WriterEnv) (ctx : Context) (reason : String)
    (h : writer_succeeds env ctx.resfile = true) :
    fail_requirement env ctx reason = PrimResult.exited false
      [⟨resolveDest ctx.resfile, write_resfile_line "failed" (some reason)⟩] := by
  unfold fail_requirement
  rw [create_resfile_of_succeeds env ctx.resfile "failed" (some reason) h]

theorem skip_of_succeeds (env : WriterEnv) (ctx : Context) (reason : String)
    (h : writer_succeeds env ctx.resfile = true) :
    skip env ctx reason = PrimResult.exited true
      [⟨resolveDest ctx.resfile, write_resfile_line "skipped" (some reason)⟩] := by
  unfold skip
  rw [create_resfile_of_succeeds env ctx.resfile "skipped" (some reason) h]

theorem pass_terminates (env : WriterEnv) (ctx : Context) :
    terminatesProcess (pass env ctx) = true := by
  unfold pass
  cases create_resfile env ctx.resfile "passed" none <;> rfl

theorem fail_requirement_terminates (env : WriterEnv) (ctx : Context) (reason : String) :
    terminatesProcess (fail_requirement env ctx reason) = true := by
  unfold fail_requirement
  cases create_resfile env ctx.resfile "failed" (some reason) <;> rfl

theorem skip_terminates (env : WriterEnv) (ctx : Context) (reason : String) :
    terminatesProcess (skip env ctx reason) = true := by
  unfold skip
  cases create_resfile env ctx.resfile "skipped" (some reason) <;> rfl

theorem terminates_not_returned (r : PrimResult) (h : terminatesProcess r = true)
    (ctx : Context) (d : List String) : r ≠ PrimResult.returned ctx d := by
  intro heq
  rw [heq] at h
  exact Bool.false_ne_true h

/-- A normally returning body run preserves the result destination stored
in the context (only `fail_check` mutates the context, and it touches only
the counter). -/
theorem runBody_returned_resfile (env : WriterEnv) (body : List BodyAction) :
    ∀ ctx ctx2 d, runBody env body ctx = PrimResult.returned ctx2 d →
      ctx2.resfile = ctx.resfile := by
  induction body with
  | nil =>
    intro ctx ctx2 d h
    unfold runBody at h
    cases h
    rfl
  | cons a rest ih =>
    intro ctx ctx2 d h
    unfold runBody at h
    cases a with
    | act_pass =>
      exact absurd h (by
        cases hs : bodyStep env ctx BodyAction.act_pass with
        | exited s evs => simp [hs]
        | aborted evs => simp [hs]
        | returned c1 d1 =>
          exact absurd hs (terminates_not_returned _ (pass_terminates env ctx) c1 d1))
    | act_fail_requirement r =>
      exact absurd h (by
        cases hs : bodyStep env ctx (BodyAction.act_fail_requirement r) with
        | exited s evs => simp [hs]
        | aborted evs => simp [hs]
        | returned c1 d1 =>
          exact absurd hs
            (terminates_not_returned _ (fail_requirement_terminates env ctx r) c1 d1))
    | act_skip r =>
      exact absurd h (by
        cases hs : bodyStep env ctx (BodyAction.act_skip r) with
        | exited s evs => simp [hs]
        | aborted evs => simp [hs]
        | returned c1 d1 =>
          exact absurd hs (terminates_not_returned _ (skip_terminates env ctx r) c1 d1))
    | act_fail_check r =>
      simp only [bodyStep, fail_check] at h
      cases hrec : runBody env rest { ctx with fail_count := ctx.fail_count + 1 } with
      | exited s evs => rw [hrec] at h; cases h
      | aborted evs => rw [hrec] at h; cases h
      | returned c2 d2 =>
        rw [hrec] at h
        cases h
        exact ih { ctx with fail_count := ctx.fail_count + 1 } _ _ hrec

/-- Under a functioning writer, a body run either exits having written
exactly one record to the run destination, or returns control normally. -/
theorem runBody_one_record (env : WriterEnv) (body : List BodyAction) :
    ∀ ctx, writer_succeeds env ctx.resfile = true →
      (∃ s ev, runBody env body ctx = PrimResult.exited s [ev] ∧
        ev.dest = resolveDest ctx.resfile) ∨
      (∃ ctx2 d, runBody env body ctx = PrimResult.returned ctx2 d) := by
  induction body with
  | nil =>
    intro ctx _
    exact Or.inr ⟨ctx, [], rfl⟩
  | cons a rest ih =>
    intro ctx h
    cases a with
    | act_pass =>
      refine Or.inl ⟨true, ⟨resolveDest ctx.resfile, write_resfile_line "passed" none⟩, ?_, rfl⟩
      unfold runBody
      simp only [bodyStep]
      rw [pass_of_succeeds env ctx h]
    | act_fail_requirement r =>
      refine Or.inl ⟨false,
        ⟨resolveDest ctx.resfile, write_resfile_line "failed" (some r)⟩, ?_, rfl⟩
      unfold runBody
      simp only [bodyStep]
      rw [fail_requirement_of_succeeds env ctx r h]
    | act_skip r =>
      refine Or.inl ⟨true,
        ⟨resolveDest ctx.resfile, write_resfile_line "skipped" (some r)⟩, ?_, rfl⟩
      unfold runBody
      simp only [bodyStep]
      rw [skip_of_succeeds env ctx r h]
    | act_fail_check r =>
      have h1 : writer_succeeds env
          (Context.resfile { ctx with fail_count := ctx.fail_count + 1 }) = true := h
      rcases ih { ctx with fail_count := ctx.fail_count + 1 } h1 with
        ⟨s, ev, heq, hdest⟩ | ⟨ctx2, d, heq⟩
      · refine Or.inl ⟨s, ev, ?_, hdest⟩
        unfold runBody
        simp only [bodyStep, fail_check]
        rw [heq]
      · refine Or.inr ⟨ctx2, ["*** Check failed: " ++ r ++ "\n"] ++ d, ?_⟩
        unfold runBody
        simp only [bodyStep, fail_check]
        rw [heq]

/-- Once a previous directory matched, the rest of the word iteration
probes nothing and changes nothing (tc.c:264-265). -/
theorem for_each_word_check_found (fs : FsOracle) (prog : String) :
    ∀ ds : List String, for_each_word_check fs ds ⟨prog, true⟩ = (⟨prog, true⟩, []) := by
  intro ds
  induction ds with
  | nil => rfl
  | cons d rest ih =>
    simp only [for_each_word_check, check_prog_in_dir]
    simp [ih]

/-- First-match characterization of the directory search started with
`found = false`: the probed candidates are every non-matching candidate up
to the first match, then the first matching one (nothing after it), and
the search succeeds iff some candidate passes the access test. -/
theorem for_each_word_check_search (fs : FsOracle) (prog : String) :
    ∀ ds : List String,
      (for_each_word_check fs ds ⟨prog, false⟩).1.found =
        (ds.map (fun d => d ++ "/" ++ prog)).any fs.eaccess_x ∧
      (for_each_word_check fs ds ⟨prog, false⟩).2 =
        (ds.map (fun d => d ++ "/" ++ prog)).takeWhile (fun c => !fs.eaccess_x c) ++
          ((ds.map (fun d => d ++ "/" ++ prog)).dropWhile (fun c => !fs.eaccess_x c)).take 1 := by
  intro ds
  induction ds with
  | nil => exact ⟨rfl, rfl⟩
  | cons d rest ih =>
    by_cases hd : fs.eaccess_x (d ++ "/" ++ prog) = true
    · constructor
      · simp only [for_each_word_check, check_prog_in_dir]
        simp [hd, for_each_word_check_found fs prog rest]
      · simp only [for_each_word_check, check_prog_in_dir]
        simp [hd, for_each_word_check_found fs prog rest, List.takeWhile_cons,
          List.dropWhile_cons]
    · rw [Bool.not_eq_true] at hd
      constructor
      · simp only [for_each_word_check, check_prog_in_dir]
        simp [hd, ih.1]
      · simp only [for_each_word_check, check_prog_in_dir]
        simp [hd, ih.2, List.takeWhile_cons, List.dropWhile_cons]

/-- Whenever `create_resfile` reports a written record, that record is the
canonical one: the `write_resfile` line, at the resolved destination. -/
theorem create_resfile_wrote (env : WriterEnv) (resfile result : String)
    (reason : Option String) (ev : WriteEvent)
    (h : create_resfile env resfile result reason = ResfileEffect.wrote ev) :
    ev = ⟨resolveDest resfile, write_resfile_line result reason⟩ := by
  unfold create_resfile at h
  unfold resolveDest
  by_cases h1 : resfile = "/dev/stdout"
  · rw [if_pos h1] at h
    rw [if_pos h1]
    by_cases hw : env.write_ok Dest.stdOut = true
    · rw [if_pos hw] at h
      injection h with h2
      exact h2.symm
    · rw [if_neg hw] at h
      cases h
  · rw [if_neg h1] at h
    rw [if_neg h1]
    by_cases h2 : resfile = "/dev/stderr"
    · rw [if_pos h2] at h
      rw [if_pos h2]
      by_cases hw : env.write_ok Dest.stdErr = true
      · rw [if_pos hw] at h
        injection h with h3
        exact h3.symm
      · rw [if_neg hw] at h
        cases h
    · rw [if_neg h2] at h
      rw [if_neg h2]
      by_cases ho : env.fopen_ok resfile = true
      · rw [if_pos ho] at h
        by_cases hw : env.write_ok (Dest.fsFile resfile) = true
        · rw [if_pos hw] at h
          injection h with h3
          exact h3.symm
        · rw [if_neg hw] at h
          cases h
      · rw [if_neg ho] at h
        cases h

/-- Conversely, a written record means all the I/O the destination needs
succeeded. -/
theorem create_resfile_wrote_succeeds (env : WriterEnv) (resfile result : String)
    (reason : Option String) (ev : WriteEvent)
    (h : create_resfile env resfile result reason = ResfileEffect.wrote ev) :
    writer_succeeds env resfile = true := by
  unfold create_resfile at h
  unfold writer_succeeds
  by_cases h1 : resfile = "/dev/stdout"
  · rw [if_pos h1] at h
    rw [if_pos h1]
    by_cases hw : env.write_ok Dest.stdOut = true
    · exact hw
    · rw [if_neg hw] at h
      cases h
  · rw [if_neg h1] at h
    rw [if_neg h1]
    by_cases h2 : resfile = "/dev/stderr"
    · rw [if_pos h2] at h
      rw [if_pos h2]
      by_cases hw : env.write_ok Dest.stdErr = true
      · exact hw
      · rw [if_neg hw] at h
        cases h
    · rw [if_neg h2] at h
      rw [if_neg h2]
      by_cases ho : env.fopen_ok resfile = true
      · rw [if_pos ho] at h
        by_cases hw : env.write_ok (Dest.fsFile resfile) = true
        · rw [ho, hw]
          rfl
        · rw [if_neg hw] at h
          cases h
      · rw [if_neg ho] at h
        cases h

theorem run_final_zero (env : WriterEnv) (ctx : Context) (d : List String)
    (h0 : ctx.fail_count = 0) (hw : writer_succeeds env ctx.resfile = true) :
    run_final env ctx d = PrimResult.exited true
      [⟨resolveDest ctx.resfile, write_resfile_line "passed" none⟩] := by
  unfold run_final
  rw [if_pos h0, pass_of_succeeds env ctx hw]

theorem run_final_pos (env : WriterEnv) (ctx : Context) (d : List String)
    (h0 : ¬ ctx.fail_count = 0) (hw : writer_succeeds env ctx.resfile = true) :
    run_final env ctx d = PrimResult.exited false
      [⟨resolveDest ctx.resfile,
        write_resfile_line "failed" (some (checks_failed_reason ctx.fail_count))⟩] := by
  unfold run_final
  rw [if_neg h0, fail_requirement_of_succeeds env ctx (checks_failed_reason ctx.fail_count) hw]

theorem run_final_terminates (env : WriterEnv) (ctx : Context) (d : List String) :
    terminatesProcess (run_final env ctx d) = true := by
  unfold run_final
  by_cases h0 : ctx.fail_count = 0
  · rw [if_pos h0]
    cases hp : pass env ctx with
    | exited s evs => rfl
    | aborted evs => rfl
    | returned c2 d2 =>
      exact absurd hp (terminates_not_returned _ (pass_terminates env ctx) c2 d2)
  · rw [if_neg h0]
    cases hp : fail_requirement env ctx (checks_failed_reason ctx.fail_count) with
    | exited s evs => rfl
    | aborted evs => rfl
    | returned c2 d2 =>
      exact absurd hp (terminates_not_returned _
        (fail_requirement_terminates env ctx (checks_failed_reason ctx.fail_count)) c2 d2)

theorem atf_tc_run_returned (env : WriterEnv) (body : List BodyAction)
    (resfile : String) (ctx : Context) (d : List String)
    (hret : runBody env body (context_init resfile) = PrimResult.returned ctx d) :
    atf_tc_run env body resfile = run_final env ctx d := by
  unfold atf_tc_run
  rw [hret]

theorem atf_tc_run_exited (env : WriterEnv) (body : List BodyAction)
    (resfile : String) (s : Bool) (evs : List WriteEvent)
    (hret : runBody env body (context_init resfile) = PrimResult.exited s evs) :
    atf_tc_run env body resfile = PrimResult.exited s evs := by
  unfold atf_tc_run
  rw [hret]

/-! ## Claims -/

/-- C3: the terminal primitives `pass`, `fail` (`fail_requirement`) and
`skip` never return to their caller — each writes its record and
terminates the process — while `fail_check` and `fail_nonfatal` always
return to the test body and each call increments the deferred-failure
counter by exactly 1. -/
theorem claim_C3_terminal_vs_deferred (env : WriterEnv) (ctx : Context)
    (reason msg : String) :
    terminatesProcess (pass env ctx) = true ∧
    terminatesProcess (fail_requirement env ctx reason) = true ∧
    terminatesProcess (skip env ctx reason) = true ∧
    (writer_succeeds env ctx.resfile = true →
      pass env ctx = PrimResult.exited true
        [⟨resolveDest ctx.resfile, write_resfile_line "passed" none⟩] ∧
      fail_requirement env ctx reason = PrimResult.exited false
        [⟨resolveDest ctx.resfile, write_resfile_line "failed" (some reason)⟩] ∧
      skip env ctx reason = PrimResult.exited true
        [⟨resolveDest ctx.resfile, write_resfile_line "skipped" (some reason)⟩]) ∧
    fail_check ctx reason = PrimResult.returned
      { ctx with fail_count := ctx.fail_count + 1 }
      ["*** Check failed: " ++ reason ++ "\n"] ∧
    atf_tc_fail_nonfatal ctx msg = PrimResult.returned
      { ctx with fail_count := ctx.fail_count + 1 }
      ["*** Check failed: " ++ msg ++ "\n"] := by
  exact ⟨pass_terminates env ctx, fail_requirement_terminates env ctx reason,
    skip_terminates env ctx reason,
    fun h => ⟨pass_of_succeeds env ctx h,
      fail_requirement_of_succeeds env ctx reason h,
      skip_of_succeeds env ctx reason h⟩,
    rfl, rfl⟩

theorem claim_C3_witness :
    pass envAll (context_init "res") = PrimResult.exited true
      [⟨resolveDest "res", write_resfile_line "passed" none⟩] ∧
    fail_check (context_init "res") "oops" =
      PrimResult.returned ⟨"res", 1⟩ ["*** Check failed: " ++ "oops" ++ "\n"] :=
  ⟨((claim_C3_terminal_vs_deferred envAll (context_init "res") "oops" "m").2.2.2.1
      (by decide)).1,
   (claim_C3_terminal_vs_deferred envAll (context_init "res") "oops" "m").2.2.2.2.1⟩

/-- C7: for every outcome and optional reason, the Result-File Writer
emits exactly one newline-terminated line — `<outcome-word>\n` when the
reason is absent and `<outcome-word>: <reason>\n` when present, where the
outcome word is one of `passed`, `failed`, `skipped` — the two exact
destination paths `/dev/stdout` and `/dev/stderr` are special-cased to
the process streams instead of opening a file, and any open or write
failure aborts the process. -/
theorem claim_C7_writer_format (env : WriterEnv) (resfile result : String)
    (reason : Option String)
    (hres : result = "passed" ∨ result = "failed" ∨ result = "skipped") :
    (∀ ev, create_resfile env resfile result reason = ResfileEffect.wrote ev →
      ev.dest = resolveDest resfile ∧
      (reason = none → ev.line = result ++ "\n") ∧
      (∀ r, reason = some r → ev.line = result ++ ": " ++ r ++ "\n") ∧
      ∃ pre, ev.line = pre ++ "\n") ∧
    (resfile = "/dev/stdout" → resolveDest resfile = Dest.stdOut ∧
      (env.write_ok Dest.stdOut = true →
        create_resfile env resfile result reason =
          ResfileEffect.wrote ⟨Dest.stdOut, write_resfile_line result reason⟩)) ∧
    (resfile = "/dev/stderr" → resolveDest resfile = Dest.stdErr ∧
      (env.write_ok Dest.stdErr = true →
        create_resfile env resfile result reason =
          ResfileEffect.wrote ⟨Dest.stdErr, write_resfile_line result reason⟩)) ∧
    (writer_succeeds env resfile = false →
      create_resfile env resfile result reason = ResfileEffect.ioAborted) := by
  refine ⟨?_, ?_, ?_, ?_⟩
  · intro ev h
    have hev := create_resfile_wrote env resfile result reason ev h
    subst hev
    refine ⟨rfl, ?_, ?_, ?_⟩
    · intro hr
      subst hr
      rfl
    · intro r hr
      subst hr
      rfl
    · cases reason with
      | none => exact ⟨result, rfl⟩
      | some r => exact ⟨result ++ ": " ++ r, rfl⟩
  · intro h1
    subst h1
    refine ⟨by simp [resolveDest], ?_⟩
    intro hw
    unfold create_resfile
    simp [hw]
  · intro h2
    subst h2
    refine ⟨by simp [resolveDest], ?_⟩
    intro hw
    unfold create_resfile
    simp [hw]
  · intro hf
    cases hc : create_resfile env resfile result reason with
    | ioAborted => rfl
    | wrote ev =>
      rw [create_resfile_wrote_succeeds env resfile result reason ev hc] at hf
      cases hf

theorem claim_C7_witness :
    ((⟨Dest.stdOut, write_resfile_line "failed" (some "X")⟩ : WriteEvent).dest =
      resolveDest "/dev/stdout" ∧
     (⟨Dest.stdOut, write_resfile_line "failed" (some "X")⟩ : WriteEvent).line =
      "failed" ++ ": " ++ "X" ++ "\n") ∧
    resolveDest "/dev/stdout" = Dest.stdOut := by
  have h := claim_C7_writer_format envAll "/dev/stdout" "failed" (some "X")
    (Or.inr (Or.inl rfl))
  have h1 := h.1 ⟨Dest.stdOut, write_resfile_line "failed" (some "X")⟩ (by decide)
  exact ⟨⟨h1.1, h1.2.2.1 "X" rfl⟩, (h.2.1 rfl).1⟩

/-- C10: `atf_tc_run` never returns normally to its caller — whenever the
body callback returns, the run invokes `pass` or `fail_requirement`, both
of which terminate the process, so the trailing no-error return statement
is unreachable. -/
theorem claim_C10_run_terminates (env : WriterEnv) (body : List BodyAction)
    (resfile : String) :
    terminatesProcess (atf_tc_run env body resfile) = true := by
  unfold atf_tc_run
  cases hb : runBody env body (context_init resfile) with
  | exited s evs => rfl
  | aborted evs => rfl
  | returned ctx d => exact run_final_terminates env ctx d

/-- C9: `require_errno`/`check_errno` with expected errno `E`, expression
result `b` and expression text `s`: when `b` is true and the observed
errno equals `E` the call returns with no record written and the failure
counter unchanged; when `b` is true and the observed errno is another
value `Y` the reason `Expected errno E, got Y, in s` is produced; when
`b` is false the reason `Expected true value in s` is produced; in the
violation cases the require-variant dispatches to the terminal fail
primitive and the check-variant to the non-fatal `fail_check`. -/
theorem claim_C9_errno (env : WriterEnv) (ctx : Context) (file : Option String)
    (line : Nat) (exp_errno actual_errno : Int) (expr_str : String)
    (hw : writer_succeeds env ctx.resfile = true) :
    (exp_errno = actual_errno →
      atf_tc_require_errno env ctx file line exp_errno expr_str true actual_errno =
        PrimResult.returned ctx [] ∧
      atf_tc_check_errno ctx file line exp_errno expr_str true actual_errno =
        PrimResult.returned ctx []) ∧
    (exp_errno ≠ actual_errno →
      atf_tc_require_errno env ctx file line exp_errno expr_str true actual_errno =
        PrimResult.exited false
          [⟨resolveDest ctx.resfile, write_resfile_line "failed"
            (some (format_reason file line
              ("Expected errno " ++ toString exp_errno ++ ", got " ++
               toString actual_errno ++ ", in " ++ expr_str)))⟩] ∧
      atf_tc_check_errno ctx file line exp_errno expr_str true actual_errno =
        PrimResult.returned { ctx with fail_count := ctx.fail_count + 1 }
          ["*** Check failed: " ++ format_reason file line
            ("Expected errno " ++ toString exp_errno ++ ", got " ++
             toString actual_errno ++ ", in " ++ expr_str) ++ "\n"]) ∧
    (atf_tc_require_errno env ctx file line exp_errno expr_str false actual_errno =
        PrimResult.exited false
          [⟨resolveDest ctx.resfile, write_resfile_line "failed"
            (some (format_reason file line
              ("Expected true value in " ++ expr_str)))⟩] ∧
      atf_tc_check_errno ctx file line exp_errno expr_str false actual_errno =
        PrimResult.returned { ctx with fail_count := ctx.fail_count + 1 }
          ["*** Check failed: " ++ format_reason file line
            ("Expected true value in " ++ expr_str) ++ "\n"]) := by
  unfold atf_tc_require_errno atf_tc_check_errno errno_test
  refine ⟨?_, ?_, ?_⟩
  · intro he
    constructor
    · rw [if_pos rfl, if_neg (fun hne => hne he)]
    · rw [if_pos rfl, if_neg (fun hne => hne he)]
  · intro he
    constructor
    · rw [if_pos rfl, if_pos he]
      exact fail_requirement_of_succeeds env ctx
        (format_reason file line
          ("Expected errno " ++ toString exp_errno ++ ", got " ++
           toString actual_errno ++ ", in " ++ expr_str)) hw
    · rw [if_pos rfl, if_pos he]
      rfl
  · constructor
    · rw [if_neg Bool.false_ne_true]
      exact fail_requirement_of_succeeds env ctx
        (format_reason file line ("Expected true value in " ++ expr_str)) hw
    · rw [if_neg Bool.false_ne_true]
      rfl

theorem claim_C9_witness :
    atf_tc_require_errno envAll (context_init "res") (some "f.c") 10 2 "call(x)" true 3 =
      PrimResult.exited false
        [⟨resolveDest "res", write_resfile_line "failed"
          (some (format_reason (some "f.c") 10
            ("Expected errno " ++ toString (2 : Int) ++ ", got " ++
             toString (3 : Int) ++ ", in " ++ "call(x)")))⟩] ∧
    atf_tc_check_errno (context_init "res") (some "f.c") 10 2 "call(x)" true 3 =
      PrimResult.returned ⟨"res", 1⟩
        ["*** Check failed: " ++ format_reason (some "f.c") 10
          ("Expected errno " ++ toString (2 : Int) ++ ", got " ++
           toString (3 : Int) ++ ", in " ++ "call(x)") ++ "\n"] :=
  (claim_C9_errno envAll (context_init "res") (some "f.c") 10 2 3 "call(x)"
    (by decide)).2.1 (by decide)

/-- C1: for every run driven by `atf_tc_run` (with a functioning result
destination), exactly one result record is written to the result
destination — one record whether the body terminates the run through a
terminal primitive or returns normally and is reduced by `atf_tc_run`;
never zero, never two. -/
theorem claim_C1_exactly_one_record (env : WriterEnv) (body : List BodyAction)
    (resfile : String) (hw : writer_succeeds env resfile = true) :
    ∃ s ev, atf_tc_run env body resfile = PrimResult.exited s [ev] ∧
      ev.dest = resolveDest resfile := by
  have hw0 : writer_succeeds env (context_init resfile).resfile = true := hw
  rcases runBody_one_record env body (context_init resfile) hw0 with
    ⟨s, ev, heq, hdest⟩ | ⟨ctx, d, heq⟩
  · exact ⟨s, ev, atf_tc_run_exited env body resfile s [ev] heq, hdest⟩
  · have hres : ctx.resfile = resfile :=
      runBody_returned_resfile env body (context_init resfile) ctx d heq
    have hw2 : writer_succeeds env ctx.resfile = true := by
      rw [hres]
      exact hw
    have hrun := atf_tc_run_returned env body resfile ctx d heq
    by_cases h0 : ctx.fail_count = 0
    · refine ⟨true, ⟨resolveDest resfile, write_resfile_line "passed" none⟩, ?_, rfl⟩
      rw [hrun, run_final_zero env ctx d h0 hw2, hres]
    · refine ⟨false, ⟨resolveDest resfile,
        write_resfile_line "failed" (some (checks_failed_reason ctx.fail_count))⟩, ?_, rfl⟩
      rw [hrun, run_final_pos env ctx d h0 hw2, hres]

theorem claim_C1_witness :
    ∃ s ev, atf_tc_run envAll [BodyAction.act_fail_check "boom"] "res" =
      PrimResult.exited s [ev] ∧ ev.dest = resolveDest "res" :=
  claim_C1_exactly_one_record envAll [BodyAction.act_fail_check "boom"] "res" (by decide)

/-- C2: for every body that returns normally, `atf_tc_run` reduces the
deferred-failure counter to the final outcome — a `passed` record and
success exit status when the counter is zero, and when the counter is
N ≥ 1 a `failed` record whose reason is the text
`<N> checks failed; see output for more details` (which contains the
literal count N) together with a failure exit status. -/
theorem claim_C2_reduction (env : WriterEnv) (body : List BodyAction)
    (resfile : String) (ctx : Context) (d : List String)
    (hw : writer_succeeds env resfile = true)
    (hret : runBody env body (context_init resfile) = PrimResult.returned ctx d) :
    (ctx.fail_count = 0 → atf_tc_run env body resfile = PrimResult.exited true
        [⟨resolveDest resfile, write_resfile_line "passed" none⟩]) ∧
    (1 ≤ ctx.fail_count →
      atf_tc_run env body resfile = PrimResult.exited false
        [⟨resolveDest resfile,
          write_resfile_line "failed" (some (checks_failed_reason ctx.fail_count))⟩] ∧
      ∃ t, checks_failed_reason ctx.fail_count = toString ctx.fail_count ++ t) := by
  have hres : ctx.resfile = resfile :=
    runBody_returned_resfile env body (context_init resfile) ctx d hret
  have hw2 : writer_succeeds env ctx.resfile = true := by
    rw [hres]
    exact hw
  have hrun := atf_tc_run_returned env body resfile ctx d hret
  constructor
  · intro h0
    rw [hrun, run_final_zero env ctx d h0 hw2, hres]
  · intro h1
    have h0 : ¬ ctx.fail_count = 0 := Nat.one_le_iff_ne_zero.mp h1
    refine ⟨?_, ⟨" checks failed; see output for more details", rfl⟩⟩
    rw [hrun, run_final_pos env ctx d h0 hw2, hres]

theorem claim_C2_witness :
    atf_tc_run envAll [BodyAction.act_fail_check "a"] "res" = PrimResult.exited false
      [⟨resolveDest "res", write_resfile_line "failed" (some (checks_failed_reason 1))⟩] ∧
    ∃ t, checks_failed_reason 1 = toString 1 ++ t :=
  (claim_C2_reduction envAll [BodyAction.act_fail_check "a"] "res" ⟨"res", 1⟩
    ["*** Check failed: " ++ "a" ++ "\n"] (by decide) (by decide)).2 (by decide)

/-- C4: for every relative program name with no directory component,
`require_prog` splits the PATH value on `:` and probes `<dir>/<name>` for
executable access in the order the directories appear — the probed
candidates are every non-matching candidate up to and including the first
match, so the search succeeds at the first matching directory, later
directories are not probed, and a probe failure in one directory is
ignored and the search continues; if no directory matches the test ends
with a failed (requirement-failure) record, not a skip, whose reason is
`The required program <name> could not be found in the PATH`. -/
theorem claim_C4_path_search (env : WriterEnv) (fs : FsOracle) (ctx : Context)
    (path prog : String)
    (hw : writer_succeeds env ctx.resfile = true)
    (habs : atf_fs_path_is_absolute prog = false)
    (hbr : branch_path prog = ".") :
    (check_prog env fs ctx path prog).2 =
      ((split_path path).map (fun d => d ++ "/" ++ prog)).takeWhile
        (fun c => !fs.eaccess_x c) ++
      (((split_path path).map (fun d => d ++ "/" ++ prog)).dropWhile
        (fun c => !fs.eaccess_x c)).take 1 ∧
    (((split_path path).map (fun d => d ++ "/" ++ prog)).any fs.eaccess_x = true →
      (check_prog env fs ctx path prog).1 = PrimResult.returned ctx []) ∧
    (((split_path path).map (fun d => d ++ "/" ++ prog)).any fs.eaccess_x = false →
      (check_prog env fs ctx path prog).1 = PrimResult.exited false
        [⟨resolveDest ctx.resfile, write_resfile_line "failed"
          (some ("The required program " ++ prog ++
            " could not be found in the PATH"))⟩]) := by
  have hs := for_each_word_check_search fs prog (split_path path)
  unfold check_prog check_prog_search
  rw [habs, if_neg Bool.false_ne_true, if_pos hbr]
  by_cases hf :
    (for_each_word_check fs (split_path path) (⟨prog, false⟩ : prog_found_pair)).1.found = true
  · rw [if_pos hf]
    refine ⟨hs.2, fun _ => rfl, fun hany => ?_⟩
    rw [hs.1, hany] at hf
    exact absurd hf Bool.false_ne_true
  · rw [if_neg hf]
    refine ⟨hs.2, fun hany => ?_, fun _ => ?_⟩
    · rw [hs.1, hany] at hf
      exact absurd rfl hf
    · exact fail_requirement_of_succeeds env ctx
        ("The required program " ++ prog ++ " could not be found in the PATH") hw

theorem claim_C4_witness :
    (check_prog envAll fsD2 (context_init "res") "/d1:/d2:/d3" "tool").2 =
      ["/d1/tool", "/d2/tool"] ∧
    (check_prog envAll fsD2 (context_init "res") "/d1:/d2:/d3" "tool").1 =
      PrimResult.returned (context_init "res") [] := by
  have h := claim_C4_path_search envAll fsD2 (context_init "res") "/d1:/d2:/d3" "tool"
    (by decide) (by decide) (by decide)
  refine ⟨?_, h.2.1 (by decide)⟩
  rw [h.1]
  decide

/-- C5: for every absolute-path program name, `require_prog` succeeds
(returns silently without writing any record) if and only if the path
passes the executable-access test; otherwise it writes a skipped record
with reason `The required program <name> could not be found` and
terminates the process with success status. -/
theorem claim_C5_absolute (env : WriterEnv) (fs : FsOracle) (ctx : Context)
    (path prog : String)
    (hw : writer_succeeds env ctx.resfile = true)
    (habs : atf_fs_path_is_absolute prog = true) :
    (fs.eaccess_x prog = true →
      check_prog env fs ctx path prog = (PrimResult.returned ctx [], [prog])) ∧
    (fs.eaccess_x prog = false →
      check_prog env fs ctx path prog =
        (PrimResult.exited true
          [⟨resolveDest ctx.resfile, write_resfile_line "skipped"
            (some ("The required program " ++ prog ++ " could not be found"))⟩],
         [prog])) := by
  unfold check_prog
  rw [habs, if_pos rfl]
  constructor
  · intro ha
    rw [if_pos ha]
  · intro ha
    rw [ha, if_neg Bool.false_ne_true,
      skip_of_succeeds env ctx
        ("The required program " ++ prog ++ " could not be found") hw]

theorem claim_C5_witness :
    check_prog envAll fsD2 (context_init "res") "/a:/b" "/d2/tool" =
      (PrimResult.returned (context_init "res") [], ["/d2/tool"]) :=
  (claim_C5_absolute envAll fsD2 (context_init "res") "/a:/b" "/d2/tool"
    (by decide) (by decide)).1 (by decide)

/-- C6: for every relative program name with a non-trivial directory
component, `require_prog` terminates the process with a fatal error
(abort), producing no test outcome record — neither a skip nor a
requirement failure. -/
theorem claim_C6_relative_dir_fatal (env : WriterEnv) (fs : FsOracle) (ctx : Context)
    (path prog : String)
    (habs : atf_fs_path_is_absolute prog = false)
    (hbr : ¬ branch_path prog = ".") :
    check_prog env fs ctx path prog = (PrimResult.aborted [], []) ∧
    terminatesProcess (check_prog env fs ctx path prog).1 = true := by
  have h1 : check_prog env fs ctx path prog = (PrimResult.aborted [], []) := by
    unfold check_prog
    rw [habs, if_neg Bool.false_ne_true, if_neg hbr]
  refine ⟨h1, ?_⟩
  rw [h1]
  rfl

theorem claim_C6_witness :
    check_prog envAll fsD2 (context_init "res") "/d1:/d2" "foo/bar" =
      (PrimResult.aborted [], []) :=
  (claim_C6_relative_dir_fatal envAll fsD2 (context_init "res") "/d1:/d2" "foo/bar"
    (by decide) (by decide)).1

/-- C8: after `atf_tc_init` returns successfully, `atf_tc_get_ident`
returns exactly the identifier passed to init (and the `ident` metadata
entry equals it); if the head (setup) callback changes the `ident`
metadata key to anything other than that identifier, init terminates the
process fatally instead of returning. -/
theorem claim_C8_ident_invariant (ident : String) (head : Option (VarMap → VarMap))
    (hasCleanup : Bool) :
    (∀ tc, atf_tc_init ident head hasCleanup = InitResult.ok tc →
      atf_tc_get_ident tc = ident ∧ atf_tc_get_md_var tc "ident" = some ident) ∧
    (∀ h, head = some h →
      ¬ atf_map_find (h (init_vars_pre_head ident hasCleanup)) "ident" = some ident →
      atf_tc_init ident head hasCleanup = InitResult.fatal) := by
  constructor
  · intro tc htc
    unfold atf_tc_init at htc
    by_cases hid :
      atf_map_find (init_vars_post_head ident head hasCleanup) "ident" = some ident
    · rw [if_pos hid] at htc
      injection htc with h2
      subst h2
      exact ⟨rfl, hid⟩
    · rw [if_neg hid] at htc
      cases htc
  · intro h hh hne
    subst hh
    have hne2 :
        ¬ atf_map_find (init_vars_post_head ident (some h) hasCleanup) "ident" =
          some ident := hne
    unfold atf_tc_init
    rw [if_neg hne2]

theorem claim_C8_witness :
    atf_tc_init "t1" (some (fun m => atf_map_insert m "ident" "evil")) false =
      InitResult.fatal :=
  (claim_C8_ident_invariant "t1" (some (fun m => atf_map_insert m "ident" "evil"))
    false).2 (fun m => atf_map_insert m "ident" "evil") rfl (by decide)

end Atf
